import Mathlib

/-!
Verification of the Block-Builder container-management layer
(`internal/docker/client.go`, `internal/docker/errors.go`).

The Go code is shallowly embedded: Go strings are Lean `String`s, Go
`error` values are an inductive `GoErr` (with a dedicated constructor for
the structured `ClientError` of `client.go` and one for the engine
library's typed not-found errors), functions returning `error` become
`Option GoErr` (`none` = nil), functions returning `(T, error)` become
`Except GoErr T`, and a Go runtime panic (index out of range) is the
`crash` constructor of `RunResult`.  The Docker engine itself is external
to the repository; the client methods take it as an explicit record of
the primitives they call.
-/

namespace BlockBuilder

/-- Model of Go byte-prefix test used below: `isPref n h` is true iff the
list `n` is an initial segment of `h`. -/
def isPref : List Char → List Char → Bool
  | [], _ => true
  | _ :: _, [] => false
  | a :: as, b :: bs => a == b && isPref as bs

/-- Occurrence of `n` as a contiguous sublist of the haystack; this is the
semantics of Go `strings.Contains` on the underlying character lists
(the empty needle occurs in every haystack). -/
def subOccurs (n : List Char) : List Char → Bool
  | [] => isPref n []
  | c :: cs => isPref n (c :: cs) || subOccurs n cs

/-- Model of Go `strings.Contains(h, n)`. -/
def strContains (h n : String) : Bool := subOccurs n.toList h.toList

/-- Model of Go `strings.HasPrefix(s, pre)`. -/
def goHasPrefix (s pre : String) : Bool := isPref pre.toList s.toList

/-- Go `error` values as they occur in this code base.
`basic` models `errors.New` / `fmt.Errorf` values by their message;
`notFound` models the engine client library's typed not-found errors
(those for which `client.IsErrNotFound` returns true), also carried by
their message; `clientError` models the `ClientError` struct of
`client.go` with fields `Op`, `Err`, `Details`. -/
inductive GoErr where
  | basic (msg : String)
  | notFound (msg : String)
  | clientError (op : String) (err : GoErr) (details : String)
deriving DecidableEq, Repr

/-- The Go `Error()` string of a `GoErr`; for `clientError` this is the
exact format of `ClientError.Error` in `client.go`:
`"docker %s failed: %v"` or `"docker %s failed: %v (%s)"`. -/
def errMsg : GoErr → String
  | .basic m => m
  | .notFound m => m
  | .clientError op e det =>
      if det = "" then "docker " ++ op ++ " failed: " ++ errMsg e
      else "docker " ++ op ++ " failed: " ++ errMsg e ++ " (" ++ det ++ ")"

/-- True iff the value is the repository's structured `ClientError`. -/
def isClientError : GoErr → Bool
  | .clientError _ _ _ => true
  | _ => false

/-- The `Op` field when the error is a `ClientError`. -/
def clientErrorOp : GoErr → Option String
  | .clientError op _ _ => some op
  | _ => none

/-- Models `client.IsErrNotFound` of the engine client library: an
interface check on the error's dynamic type, not a message match. -/
def isNotFoundErr : GoErr → Bool
  | .notFound _ => true
  | _ => false

/-- Sentinel `ErrContainerNotFound` of `errors.go`. -/
def ErrContainerNotFound : GoErr := .basic "container not found"

/-- Sentinel `ErrImageNotFound` of `errors.go`. -/
def ErrImageNotFound : GoErr := .basic "image not found"

/-- Sentinel `ErrContainerAlreadyExists` of `errors.go`. -/
def ErrContainerAlreadyExists : GoErr := .basic "container already exists"

/-- `IsContainerNotFoundError` of `errors.go`: nil gives false, otherwise
substring match on "No such container". -/
def IsContainerNotFoundError : Option GoErr → Bool
  | none => false
  | some e => strContains (errMsg e) "No such container"

/-- `IsImageNotFoundError` of `errors.go`. -/
def IsImageNotFoundError : Option GoErr → Bool
  | none => false
  | some e => strContains (errMsg e) "No such image"

/-- `IsResourceConstraintError` of `errors.go`. -/
def IsResourceConstraintError : Option GoErr → Bool
  | none => false
  | some e => strContains (errMsg e) "Resource constraints exceeded"

/-- `ParseContainerError` of `errors.go`: a switch that checks the
not-found, image-not-found and "Conflict" substrings in that order and
passes any other error through unchanged. -/
def ParseContainerError : Option GoErr → Option GoErr
  | none => none
  | some e =>
      if IsContainerNotFoundError (some e) then some ErrContainerNotFound
      else if IsImageNotFoundError (some e) then some ErrImageNotFound
      else if strContains (errMsg e) "Conflict" then some ErrContainerAlreadyExists
      else some e

/-- The five semantic error kinds of the spec's Error Classifier. -/
inductive ErrorKind where
  | not_found | image_not_found | already_exists | resource_constraint | generic
deriving DecidableEq, Repr

/-- The classifier induced by the code: the substring cascade of
`ParseContainerError` (container, image, Conflict, in that order),
with the separate predicate `IsResourceConstraintError` applied to
errors that `ParseContainerError` passes through, and `generic` for the
rest.  This is a total function of the error value alone. -/
def classify (e : GoErr) : ErrorKind :=
  if strContains (errMsg e) "No such container" then .not_found
  else if strContains (errMsg e) "No such image" then .image_not_found
  else if strContains (errMsg e) "Conflict" then .already_exists
  else if strContains (errMsg e) "Resource constraints exceeded" then .resource_constraint
  else .generic

/-- Splitting a character list at every occurrence of `sep`; the list
semantics of Go `strings.Split` with a one-character separator (the only
separators the code uses are "/" and "-").  The result is never empty and
splitting the empty string yields one empty field, as in Go. -/
def splitChars (sep : Char) : List Char → List (List Char)
  | [] => [[]]
  | c :: cs =>
    let r := splitChars sep cs
    if c = sep then [] :: r
    else (c :: r.headD []) :: r.tail

/-- Model of Go `strings.Split(s, sep)` for a one-character separator. -/
def goSplit (s : String) (sep : Char) : List String :=
  (splitChars sep s.toList).map List.asString

/-- Decimal value of a digit list (the accumulator loop of Go
`strconv.ParseUint` in base 10). -/
def digitsVal (l : List Char) : Nat := l.foldl (fun a c => a * 10 + (c.toNat - 48)) 0

/-- Model of Go `strconv.ParseUint(s, 10, 16)` as used where its error is
checked: `none` on the empty string, a non-digit character, or a value
that does not fit in 16 bits. -/
def parseUint16 (s : String) : Option Nat :=
  if s.toList = [] then none
  else if s.toList.all Char.isDigit then
    if digitsVal s.toList < 65536 then some (digitsVal s.toList) else none
  else none

/-- Model of Go `strconv.ParseUint(s, 10, 16)` as used with the error
discarded (`v, _ :=`): a syntax error yields value 0, a range error
yields the 16-bit maximum, per the Go library contract. -/
def parseUint16Val (s : String) : Nat :=
  if s.toList = [] then 0
  else if s.toList.all Char.isDigit then min (digitsVal s.toList) 65535
  else 0

/-- Model of `nat.ParsePortRange` from the go-connections library used by
`nat.NewPort`: an empty string or unparsable number is an error; a
"lo-hi" range must be ordered. -/
def ParsePortRange (ports : String) : Except GoErr (Nat × Nat) :=
  if ports = "" then .error (.basic "empty string specified for ports")
  else if strContains ports "-" then
    match parseUint16 ((goSplit ports '-').headD "") with
    | none => .error (.basic "invalid syntax")
    | some lo =>
      match parseUint16 (((goSplit ports '-').get? 1).getD "") with
      | none => .error (.basic "invalid syntax")
      | some hi =>
        if hi < lo then .error (.basic ("Invalid range specified for the Port: " ++ ports))
        else .ok (lo, hi)
  else
    match parseUint16 ports with
    | none => .error (.basic "invalid syntax")
    | some v => .ok (v, v)

/-- Model of `nat.NewPort(proto, port)` from the go-connections library:
validates the port number and renders the canonical "port/proto" key. -/
def NewPort (proto port : String) : Except GoErr String :=
  match ParsePortRange port with
  | .error e => .error e
  | .ok (lo, hi) =>
    if lo = hi then .ok (Nat.repr lo ++ "/" ++ proto)
    else .ok (Nat.repr lo ++ "-" ++ Nat.repr hi ++ "/" ++ proto)

/-- A `nat.PortBinding`: host interface address and host port. -/
structure PortBinding where
  HostIP : String := ""
  HostPort : String := ""
deriving DecidableEq, Repr

/-- The repository's `ContainerConfig` (client.go).  The Go `Ports` map
(container port → host port) is modelled as an association list; the
claims proved below do not depend on Go's randomized map order. -/
structure ContainerConfig where
  Image : String := ""
  Command : List String := []
  Env : List String := []
  WorkingDir : String := ""
  CPUShares : Int := 0
  MemoryLimit : Int := 0
  NetworkMode : String := ""
  RestartPolicy : String := ""
  Labels : List (String × String) := []
  Ports : List (String × String) := []
deriving DecidableEq, Repr

/-- The engine-native `container.Config` fields the code fills in. -/
structure CreateConfig where
  Image : String := ""
  Cmd : List String := []
  Env : List String := []
  WorkingDir : String := ""
  Labels : List (String × String) := []
  ExposedPorts : List String := []
deriving DecidableEq, Repr

/-- The engine-native `container.HostConfig` fields the code fills in. -/
structure CreateHostConfig where
  NetworkMode : String := ""
  PortBindings : List (String × PortBinding) := []
  Memory : Int := 0
  CPUShares : Int := 0
  RestartPolicyName : String := ""
deriving DecidableEq, Repr

/-- A full container-creation request sent to the engine. -/
structure CreateRequest where
  config : CreateConfig
  host : CreateHostConfig
deriving DecidableEq, Repr

/-- The engine's container-creation response. -/
structure CreateResponse where
  ID : String := ""
  Warnings : List String := []
deriving DecidableEq, Repr

/-- One frame of the engine's multiplexed log stream, as decoded by the
docker `stdcopy` header: `fd` is the stream descriptor byte (0 stdin,
1 stdout, 2 stderr, anything else invalid), `payload` the frame bytes. -/
structure Frame where
  fd : Nat
  payload : String
deriving DecidableEq, Repr

/-- `container.LogsOptions` as filled by `GetContainerLogs`. -/
structure LogsOptions where
  ShowStdout : Bool
  ShowStderr : Bool
  Tail : String
deriving DecidableEq, Repr

/-- `State` block of the engine inspect payload. -/
structure InspectState where
  Status : String := ""
  StartedAt : String := ""
  FinishedAt : String := ""
  ExitCode : Int := 0
deriving DecidableEq, Repr

/-- `HostConfig` block of the engine inspect payload. -/
structure InspectHostConfig where
  NetworkMode : String := ""
  RestartPolicyName : String := ""
  MaximumRetryCount : Int := 0
  AutoRemove : Bool := false
  Memory : Int := 0
  CPUShares : Int := 0
  CPUQuota : Int := 0
  CPUPeriod : Int := 0
deriving DecidableEq, Repr

/-- The engine inspect payload, restricted to the fields `GetContainer`
reads.  `PortsRaw` is `NetworkSettings.Ports`: a map from "port/proto"
keys to binding lists, modelled as an association list. -/
structure InspectPayload where
  ID : String := ""
  Name : String := ""
  ImageRef : String := ""
  ImageID : String := ""
  Cmd : List String := []
  Labels : List (String × String) := []
  Created : String := ""
  State : InspectState := {}
  PortsRaw : List (String × List PortBinding) := []
  RestartCount : Nat := 0
  HostConfig : InspectHostConfig := {}
deriving DecidableEq, Repr

/-- One entry of the engine's container-list response, restricted to the
fields `ListContainers` reads. -/
structure SummaryPayload where
  ID : String := ""
  Names : List String := []
  Image : String := ""
  Status : String := ""
  Created : Int := 0
  State : String := ""
  Labels : List (String × String) := []
deriving DecidableEq, Repr

/-- `types.Port` as produced by the port normalization of
`GetContainer`; `Typ` stands for the Go field `Type` (a Lean keyword). -/
structure GoPort where
  IP : String := ""
  PrivatePort : Nat := 0
  PublicPort : Nat := 0
  Typ : String := ""
deriving DecidableEq, Repr

/-- `HostConfig` summary inside `ContainerInfo`. -/
structure HostConfigInfo where
  NetworkMode : String := ""
  RestartPolicyName : String := ""
  MaximumRetryCount : Int := 0
  AutoRemove : Bool := false
  Memory : Int := 0
  CPUShares : Int := 0
  CPUQuota : Int := 0
  CPUPeriod : Int := 0
deriving DecidableEq, Repr

/-- The repository's `ContainerInfo`, restricted to the fields the two
constructing operations fill in.  Times are an abstract instant type
modelled as `Int`, with 0 the zero-time sentinel; unset fields keep the
Go zero value. -/
structure ContainerInfo where
  ID : String := ""
  Name : String := ""
  Image : String := ""
  ImageID : String := ""
  Command : String := ""
  State : String := ""
  Status : String := ""
  Created : Int := 0
  Started : Int := 0
  Finished : Int := 0
  Ports : List GoPort := []
  Labels : List (String × String) := []
  RestartCount : Nat := 0
  ExitCode : Int := 0
  HostConfig : HostConfigInfo := {}
deriving DecidableEq, Repr

/-- Outcome of running a Go function that may panic: `crash` models a
runtime panic such as an out-of-range index. -/
inductive RunResult (α : Type) where
  | value (a : α)
  | crash (msg : String)
deriving DecidableEq, Repr

/-- The engine as seen by the client: the exact set of engine-API
primitives `client.go` invokes.  The engine is external to the
repository, so it is a parameter of every operation. -/
structure Engine where
  containerCreate : String → CreateRequest → Except GoErr CreateResponse
  containerStart : String → Option GoErr
  containerList : Bool → List String → Except GoErr (List SummaryPayload)
  containerRemove : String → Bool → Option GoErr
  containerLogs : String → LogsOptions → Except GoErr (List Frame)
  copyTo : String → String → List Nat → Option GoErr
  containerInspect : String → Except GoErr InspectPayload

/-- The port-translation loop of `CreateContainer`: for each map entry
`(containerPort, hostPort)` it calls
`nat.NewPort("tcp", strings.Split(containerPort, "/")[0])`, aborts on the
first parse error, and otherwise binds the port to host `0.0.0.0` with
the given host port and records it as exposed. -/
def buildPortMaps : List (String × String) → Except GoErr (List (String × PortBinding) × List String)
  | [] => .ok ([], [])
  | (cp, hp) :: rest =>
    match NewPort "tcp" ((goSplit cp '/').headD "") with
    | .error e => .error e
    | .ok np =>
      match buildPortMaps rest with
      | .error e => .error e
      | .ok (pb, ex) => .ok ((np, { HostIP := "0.0.0.0", HostPort := hp }) :: pb, np :: ex)

/-- `Client.CreateContainer` of client.go: translate the port map (a
parse failure aborts with a `ClientError` whose `Op` is the literal
"create container" before any engine call), then issue the engine create
call (a failure there is wrapped with `Op` "create_container"), and on
success return the engine-assigned ID (warnings are printed, not
returned). -/
def CreateContainer (eng : Engine) (name : String) (config : ContainerConfig) :
    Except GoErr String :=
  match buildPortMaps config.Ports with
  | .error e => .error (.clientError "create container" e "invalid port configuration")
  | .ok (pb, ex) =>
    match eng.containerCreate name
      { config := { Image := config.Image, Cmd := config.Command, Env := config.Env,
                    WorkingDir := config.WorkingDir, Labels := config.Labels,
                    ExposedPorts := ex },
        host := { NetworkMode := config.NetworkMode, PortBindings := pb,
                  Memory := config.MemoryLimit, CPUShares := config.CPUShares,
                  RestartPolicyName := config.RestartPolicy } } with
    | .error e => .error (.clientError "create_container" e "failed to create container")
    | .ok resp => .ok resp.ID

/-- `Client.StartContainer`: forwards to the engine, returning its error
(if any) unchanged. -/
def StartContainer (eng : Engine) (containerID : String) : Option GoErr :=
  eng.containerStart containerID

/-- `Client.RemoveContainer`: forwards to the engine with the caller's
`force` flag unchanged, returning the engine error (if any) unchanged. -/
def RemoveContainer (eng : Engine) (containerID : String) (force : Bool) : Option GoErr :=
  eng.containerRemove containerID force

/-- `Client.CopyToContainer`: forwards to the engine, returning its error
(if any) unchanged. -/
def CopyToContainer (eng : Engine) (containerID dstPath : String) (content : List Nat) :
    Option GoErr :=
  eng.copyTo containerID dstPath content

/-- The demultiplexing loop of docker's `stdcopy.StdCopy`: stdin/stdout
frames are appended to the stdout sink, stderr frames to the stderr
sink, a system-error frame or an unknown descriptor aborts with an
error. -/
def stdCopyAux : String × String → List Frame → Except GoErr (String × String)
  | acc, [] => .ok acc
  | (o, e), f :: rest =>
    if f.fd = 0 ∨ f.fd = 1 then stdCopyAux (o ++ f.payload, e) rest
    else if f.fd = 2 then stdCopyAux (o, e ++ f.payload) rest
    else if f.fd = 3 then .error (.basic ("error from daemon in stream: " ++ f.payload))
    else .error (.basic "unrecognized input header")

/-- `stdcopy.StdCopy` with empty sinks. -/
def StdCopy (frames : List Frame) : Except GoErr (String × String) :=
  stdCopyAux ("", "") frames

/-- Concatenated payloads of the stdout-directed frames, in order. -/
def stdoutOf : List Frame → String
  | [] => ""
  | f :: rest => if f.fd = 0 ∨ f.fd = 1 then f.payload ++ stdoutOf rest else stdoutOf rest

/-- Concatenated payloads of the stderr-directed frames, in order. -/
def stderrOf : List Frame → String
  | [] => ""
  | f :: rest => if f.fd = 2 then f.payload ++ stderrOf rest else stderrOf rest

/-- `Client.GetContainerLogs`: requests both streams with the given tail,
wraps an engine failure as `ClientError{op:"get_logs"}`, demultiplexes the
whole stream via `StdCopy` (a demux failure is `ClientError{op:"read_logs"}`),
and returns the labeled two-section string. -/
def GetContainerLogs (eng : Engine) (containerID tail : String) : Except GoErr String :=
  match eng.containerLogs containerID { ShowStdout := true, ShowStderr := true, Tail := tail } with
  | .error e => .error (.clientError "get_logs" e "")
  | .ok frames =>
    match StdCopy frames with
    | .error e => .error (.clientError "read_logs" e "")
    | .ok (o, e2) => .ok ("STDOUT:\n" ++ o ++ "\nSTDERR:\n" ++ e2)

/-- One iteration of the inner binding loop of `GetContainer`'s port
normalization: both numeric parses discard their error (Go `_`), and the
`Type` field is `strings.Split(key, "/")[1]` — an index that panics
(`none` here) when the key has no "/". -/
def normBinding (key : String) (b : PortBinding) : Option GoPort :=
  match (goSplit key '/')[1]? with
  | none => none
  | some ty => some { PrivatePort := parseUint16Val ((goSplit key '/').headD ""),
                      PublicPort := parseUint16Val b.HostPort,
                      Typ := ty }

/-- The inner loop over one key's binding list; note that a malformed key
with an empty binding list triggers no index access, as in Go. -/
def normBindingsList (key : String) : List PortBinding → Option (List GoPort)
  | [] => some []
  | b :: bs =>
    match normBinding key b, normBindingsList key bs with
    | some p, some ps => some (p :: ps)
    | _, _ => none

/-- The outer loop of `GetContainer`'s port normalization over
`NetworkSettings.Ports`. -/
def normalizePorts : List (String × List PortBinding) → Option (List GoPort)
  | [] => some []
  | (k, bs) :: rest =>
    match normBindingsList k bs, normalizePorts rest with
    | some ps, some rs => some (ps ++ rs)
    | _, _ => none

/-- `Client.GetContainer`: inspect the container (a typed not-found error
is wrapped with detail "Container not found", any other failure without
detail), then normalize: the three timestamps are parsed with the error
discarded, so a parse failure leaves the zero time (Go `time.Parse`
returns the zero `Time` together with the error; the RFC3339Nano parser
itself is the stdlib's and is passed in as `parse`, with `none` meaning
parse failure); ports are normalized by `normalizePorts`, whose `none`
is the unguarded index panic, surfaced as `crash`. -/
def GetContainer (parse : String → Option Int) (eng : Engine) (containerID : String) :
    RunResult (Except GoErr ContainerInfo) :=
  match eng.containerInspect containerID with
  | .error e =>
    if isNotFoundErr e then
      .value (.error (.clientError "inspect" e "Container not found"))
    else
      .value (.error (.clientError "inspect" e ""))
  | .ok p =>
    match normalizePorts p.PortsRaw with
    | none => .crash "index out of range"
    | some ports =>
      .value (.ok
        { ID := p.ID, Name := p.Name, Image := p.ImageRef, ImageID := p.ImageID,
          Command := String.intercalate " " p.Cmd,
          Status := p.State.Status, State := p.State.Status,
          Created := (parse p.Created).getD 0,
          Started := (parse p.State.StartedAt).getD 0,
          Finished := (parse p.State.FinishedAt).getD 0,
          Labels := p.Labels, Ports := ports,
          RestartCount := p.RestartCount, ExitCode := p.State.ExitCode,
          HostConfig :=
            { NetworkMode := p.HostConfig.NetworkMode,
              RestartPolicyName := p.HostConfig.RestartPolicyName,
              MaximumRetryCount := p.HostConfig.MaximumRetryCount,
              AutoRemove := p.HostConfig.AutoRemove,
              Memory := p.HostConfig.Memory,
              CPUShares := p.HostConfig.CPUShares,
              CPUQuota := p.HostConfig.CPUQuota,
              CPUPeriod := p.HostConfig.CPUPeriod } })

/-- Normalization of one list entry by `ListContainers`; `Names[0]` is an
unguarded index (panic on an empty name list, `none` here). -/
def normSummary (c : SummaryPayload) : Option ContainerInfo :=
  match c.Names.head? with
  | none => none
  | some n => some { ID := c.ID, Name := n, Image := c.Image, Status := c.Status,
                     Created := c.Created, State := c.State, Labels := c.Labels }

/-- The normalization loop of `ListContainers`. -/
def normSummaries : List SummaryPayload → Option (List ContainerInfo)
  | [] => some []
  | c :: cs =>
    match normSummary c, normSummaries cs with
    | some i, some is => some (i :: is)
    | _, _ => none

/-- `Client.ListContainers`: builds "k=v" label filters, wraps an engine
failure as `ClientError{op:"list_containers"}`, and normalizes each entry. -/
def ListContainers (eng : Engine) (all : Bool) (labelFilter : List (String × String)) :
    RunResult (Except GoErr (List ContainerInfo)) :=
  match eng.containerList all (labelFilter.map (fun kv => kv.1 ++ "=" ++ kv.2)) with
  | .error e => .value (.error (.clientError "list_containers" e ""))
  | .ok cs =>
    match normSummaries cs with
    | none => .crash "index out of range"
    | some infos => .value (.ok infos)

/-- The restart-policy block of `ValidateContainerConfig`. -/
def restartPolicyCheck (rp : String) : Option GoErr :=
  if rp ≠ "" then
    if rp = "no" ∨ rp = "always" ∨ rp = "unless-stopped" ∨ rp = "on-failure" then none
    else some (.basic "invalid restart policy")
  else none

/-- `ValidateContainerConfig` of errors.go, including its two quirks: the
`validModes` map also contains the bare string "container", and a
network mode with the "container:" prefix returns nil immediately,
skipping the restart-policy check. -/
def ValidateContainerConfig (c : ContainerConfig) : Option GoErr :=
  if c.Image = "" then some (.basic "image name is required")
  else if c.MemoryLimit < 0 then some (.basic "memory limit must be non-negative")
  else if c.CPUShares < 0 then some (.basic "CPU shares must be non-negative")
  else if c.NetworkMode ≠ "" then
    if goHasPrefix c.NetworkMode "container:" then none
    else if c.NetworkMode = "bridge" ∨ c.NetworkMode = "host" ∨ c.NetworkMode = "none" ∨
            c.NetworkMode = "container" then
      restartPolicyCheck c.RestartPolicy
    else some (.basic "invalid network mode")
  else restartPolicyCheck c.RestartPolicy

/-- Acceptance predicate written from the claim's words (for comparison
with `ValidateContainerConfig`): image non-empty, memory and CPU shares
non-negative, network mode (when set) one of bridge/host/none or of the
"container:" prefix form, restart policy (when set) one of the four
enumerated values. -/
def ClaimAccepts (c : ContainerConfig) : Prop :=
  c.Image ≠ "" ∧ 0 ≤ c.MemoryLimit ∧ 0 ≤ c.CPUShares ∧
  (c.NetworkMode = "" ∨ c.NetworkMode = "bridge" ∨ c.NetworkMode = "host" ∨
    c.NetworkMode = "none" ∨ goHasPrefix c.NetworkMode "container:" = true) ∧
  (c.RestartPolicy = "" ∨ c.RestartPolicy = "no" ∨ c.RestartPolicy = "always" ∨
    c.RestartPolicy = "unless-stopped" ∨ c.RestartPolicy = "on-failure")

instance (c : ContainerConfig) : Decidable (ClaimAccepts c) := by
  unfold ClaimAccepts; infer_instance

/-- The typed not-found error of the engine client library
(`objectNotFoundError`), whose message is
"Error: No such <object>: <id>" and whose dynamic type satisfies
`client.IsErrNotFound`. -/
def objectNotFoundError (object id : String) : GoErr :=
  .notFound ("Error: No such " ++ object ++ ": " ++ id)

/-- The Docker daemon's documented removal behavior (external to the
repository): removing a running container without force fails; with
force it succeeds.  `running` is the set of running container IDs. -/
def daemonRemove (running : List String) (id : String) (force : Bool) : Option GoErr :=
  if id ∈ running ∧ force = false then
    some (.basic ("You cannot remove a running container " ++ id ++
      ". Stop the container before attempting removal or force remove"))
  else none

/-- A placeholder engine whose primitives all fail with an unclassifiable
error; concrete test engines below override single fields. -/
def engineDefault : Engine where
  containerCreate := fun _ _ => .error (.basic "engine unavailable")
  containerStart := fun _ => some (.basic "engine unavailable")
  containerList := fun _ _ => .error (.basic "engine unavailable")
  containerRemove := fun _ _ => some (.basic "engine unavailable")
  containerLogs := fun _ _ => .error (.basic "engine unavailable")
  copyTo := fun _ _ _ => some (.basic "engine unavailable")
  containerInspect := fun _ => .error (.basic "engine unavailable")

/-- Engine whose start primitive fails with a plain engine error. -/
def engBoomStart : Engine :=
  { engineDefault with containerStart := fun _ => some (.basic "boom") }

/-- Engine whose create primitive always succeeds with a fixed ID. -/
def engCreateOk : Engine :=
  { engineDefault with containerCreate := fun _ _ => .ok { ID := "cid123" } }

/-- A config whose port-map key has an unparsable container-port part. -/
def cfgBadPort : ContainerConfig :=
  { Image := "node:18-alpine", Ports := [("abc", "3000")] }

/-- A valid config with the spec's "3000" → "3000" port entry. -/
def cfgGoodPort : ContainerConfig :=
  { Image := "node:18-alpine", Ports := [("3000", "3000")] }

/-- An interleaved log stream: stdout and stderr frames alternate. -/
def framesC4 : List Frame :=
  [{ fd := 1, payload := "out1" }, { fd := 2, payload := "err1" },
   { fd := 1, payload := "out2" }, { fd := 2, payload := "err2" }]

/-- Engine returning the interleaved stream above for any log request. -/
def engLogsC4 : Engine :=
  { engineDefault with containerLogs := fun _ _ => .ok framesC4 }

/-- Engine that knows no container: inspect always yields the library's
typed not-found error for the requested ID. -/
def engNotFound : Engine :=
  { engineDefault with containerInspect := fun id => .error (objectNotFoundError "container" id) }

/-- Inspect payload carrying the binding produced for the "3000" → "3000"
port-map entry; all timestamps are empty strings (never started). -/
def payload3000 : InspectPayload :=
  { PortsRaw := [("3000/tcp", [{ HostIP := "0.0.0.0", HostPort := "3000" }])] }

/-- Engine returning `payload3000` from inspect. -/
def engInspect3000 : Engine :=
  { engineDefault with containerInspect := fun _ => .ok payload3000 }

/-- Inspect payload whose port key lacks the "/" separator but has a
binding, the shape on which the port normalization's index is out of
bounds. -/
def payloadNoSlash : InspectPayload :=
  { PortsRaw := [("3000", [{ HostIP := "0.0.0.0", HostPort := "3000" }])] }

/-- Engine returning `payloadNoSlash` from inspect. -/
def engNoSlash : Engine :=
  { engineDefault with containerInspect := fun _ => .ok payloadNoSlash }

/-- Config with the bare network mode "container" (no colon). -/
def cfgBareContainer : ContainerConfig :=
  { Image := "node", NetworkMode := "container" }

/-- Config with a "container:" prefixed mode and an invalid restart
policy. -/
def cfgPrefixBadPolicy : ContainerConfig :=
  { Image := "node", NetworkMode := "container:db", RestartPolicy := "bogus" }

/-- Engine whose remove primitive behaves like the daemon with the given
set of running containers. -/
def engineRunning (running : List String) : Engine :=
  { engineDefault with containerRemove := daemonRemove running }

/-! ## Helper lemmas -/

theorem isPref_self_append (n t : List Char) : isPref n (n ++ t) = true := by
  induction n with
  | nil => rfl
  | cons a as ih => simp [isPref, ih]

theorem subOccurs_self_append (n b : List Char) : subOccurs n (n ++ b) = true := by
  cases n with
  | nil =>
    cases b with
    | nil => rfl
    | cons c cs => simp [subOccurs, isPref]
  | cons a as =>
    have h := isPref_self_append (a :: as) b
    simp only [List.cons_append] at h
    simp [subOccurs, h]

theorem subOccurs_of_middle (a n b : List Char) :
    subOccurs n (a ++ (n ++ b)) = true := by
  induction a with
  | nil => simpa using subOccurs_self_append n b
  | cons c cs ih => simp [subOccurs, ih]

/-- If a string is an explicit concatenation with `n` in the middle,
`strContains` finds `n`. -/
theorem strContains_middle (pre post n s : String)
    (h : s.toList = pre.toList ++ (n.toList ++ post.toList)) :
    strContains s n = true := by
  unfold strContains
  rw [h]
  exact subOccurs_of_middle _ _ _

theorem string_toList_append (s t : String) : (s ++ t).toList = s.toList ++ t.toList := rfl

theorem str_append_empty (s : String) : s ++ "" = s := by
  cases s with
  | mk l => exact congrArg String.mk (List.append_nil l)

theorem str_empty_append (s : String) : "" ++ s = s := rfl

theorem str_append_assoc (a b c : String) : (a ++ b) ++ c = a ++ (b ++ c) := by
  cases a with
  | mk la =>
    cases b with
    | mk lb =>
      cases c with
      | mk lc => exact congrArg String.mk (List.append_assoc la lb lc)

/-! ## C1: the error classifier -/

/-- C1 (amended): the classifier induced by `ParseContainerError` and
`IsResourceConstraintError` is a pure total function into the five kinds,
but the substring checks are ordered: "No such container" is checked
first, then "No such image", then "Conflict", and only an error passed
through by that cascade is classified by the resource-constraint
predicate.  Each kind is produced exactly when its pattern occurs and no
earlier-checked pattern does, and the classification agrees with
`ParseContainerError` and `IsResourceConstraintError` of errors.go. -/
theorem classifier_precedence (e : GoErr) :
    (classify e = .not_found ↔ strContains (errMsg e) "No such container" = true) ∧
    (classify e = .image_not_found ↔
      (strContains (errMsg e) "No such container" = false ∧
       strContains (errMsg e) "No such image" = true)) ∧
    (classify e = .already_exists ↔
      (strContains (errMsg e) "No such container" = false ∧
       strContains (errMsg e) "No such image" = false ∧
       strContains (errMsg e) "Conflict" = true)) ∧
    (classify e = .resource_constraint ↔
      (strContains (errMsg e) "No such container" = false ∧
       strContains (errMsg e) "No such image" = false ∧
       strContains (errMsg e) "Conflict" = false ∧
       strContains (errMsg e) "Resource constraints exceeded" = true)) ∧
    (classify e = .generic ↔
      (strContains (errMsg e) "No such container" = false ∧
       strContains (errMsg e) "No such image" = false ∧
       strContains (errMsg e) "Conflict" = false ∧
       strContains (errMsg e) "Resource constraints exceeded" = false)) ∧
    (IsResourceConstraintError (some e) = strContains (errMsg e) "Resource constraints exceeded") ∧
    (strContains (errMsg e) "No such container" = true →
      ParseContainerError (some e) = some ErrContainerNotFound) ∧
    (strContains (errMsg e) "No such container" = false →
      strContains (errMsg e) "No such image" = true →
      ParseContainerError (some e) = some ErrImageNotFound) ∧
    (strContains (errMsg e) "No such container" = false →
      strContains (errMsg e) "No such image" = false →
      strContains (errMsg e) "Conflict" = true →
      ParseContainerError (some e) = some ErrContainerAlreadyExists) ∧
    (strContains (errMsg e) "No such container" = false →
      strContains (errMsg e) "No such image" = false →
      strContains (errMsg e) "Conflict" = false →
      ParseContainerError (some e) = some e) := by
  unfold classify ParseContainerError IsContainerNotFoundError IsImageNotFoundError
    IsResourceConstraintError
  rcases hc : strContains (errMsg e) "No such container" <;>
    rcases hi : strContains (errMsg e) "No such image" <;>
      rcases hk : strContains (errMsg e) "Conflict" <;>
        rcases hr : strContains (errMsg e) "Resource constraints exceeded" <;>
          simp [hc, hi, hk, hr]

/-- C1 counterexample: an error message containing both "Conflict" and
"Resource constraints exceeded" satisfies the resource-constraint
predicate, yet the classifier yields already-exists, not
resource-constraint, because the "Conflict" check comes first. -/
theorem classifier_rce_shadowed :
    IsResourceConstraintError (some (GoErr.basic "Conflict: Resource constraints exceeded")) =
      true ∧
    classify (GoErr.basic "Conflict: Resource constraints exceeded") = ErrorKind.already_exists ∧
    classify (GoErr.basic "Conflict: Resource constraints exceeded") ≠
      ErrorKind.resource_constraint ∧
    ParseContainerError (some (GoErr.basic "Conflict: Resource constraints exceeded")) =
      some ErrContainerAlreadyExists := by
  refine ⟨by decide, by decide, by decide, by decide⟩

/-- Witness for `classifier_precedence` at concrete inputs. -/
theorem classifier_precedence_witness :
    classify (GoErr.basic "Resource constraints exceeded: memory") =
      ErrorKind.resource_constraint ∧
    ParseContainerError (some (GoErr.basic "No such container: abc")) =
      some ErrContainerNotFound := by
  constructor
  · exact (classifier_precedence (GoErr.basic "Resource constraints exceeded: memory")).2.2.2.1.mpr
      (by refine ⟨by decide, by decide, by decide, by decide⟩)
  · exact (classifier_precedence (GoErr.basic "No such container: abc")).2.2.2.2.2.2.1 (by decide)

/-! ## C2: ClientError as error currency -/

/-- C2 (amended): only part of the operation set wraps failures in
`ClientError`.  `startContainer`, `removeContainer` and `copyToContainer`
forward the engine's result — error included — unchanged, while the
failures of `createContainer`, `listContainers`, `getContainerLogs` and
`getContainer` are always `ClientError`s carrying the operation name. -/
theorem engine_ops_error_wrapping :
    (∀ eng id, StartContainer eng id = eng.containerStart id) ∧
    (∀ eng id force, RemoveContainer eng id force = eng.containerRemove id force) ∧
    (∀ eng id dst content, CopyToContainer eng id dst content = eng.copyTo id dst content) ∧
    (∀ eng name cfg e, CreateContainer eng name cfg = .error e →
      clientErrorOp e = some "create container" ∨ clientErrorOp e = some "create_container") ∧
    (∀ eng all lf e, ListContainers eng all lf = .value (.error e) →
      clientErrorOp e = some "list_containers") ∧
    (∀ eng id tl e, GetContainerLogs eng id tl = .error e →
      clientErrorOp e = some "get_logs" ∨ clientErrorOp e = some "read_logs") ∧
    (∀ parse eng id e, GetContainer parse eng id = .value (.error e) →
      clientErrorOp e = some "inspect") := by
  refine ⟨fun _ _ => rfl, fun _ _ _ => rfl, fun _ _ _ _ => rfl, ?_, ?_, ?_, ?_⟩
  · intro eng name cfg e h
    unfold CreateContainer at h
    split at h
    · simp only [Except.error.injEq] at h
      subst h
      exact Or.inl rfl
    · split at h
      · simp only [Except.error.injEq] at h
        subst h
        exact Or.inr rfl
      · exact absurd h (by simp)
  · intro eng all lf e h
    unfold ListContainers at h
    split at h
    · simp only [RunResult.value.injEq, Except.error.injEq] at h
      subst h
      rfl
    · split at h
      · exact absurd h (by simp)
      · simp at h
  · intro eng id tl e h
    unfold GetContainerLogs at h
    split at h
    · simp only [Except.error.injEq] at h
      subst h
      exact Or.inl rfl
    · split at h
      · simp only [Except.error.injEq] at h
        subst h
        exact Or.inr rfl
      · simp at h
  · intro parse eng id e h
    unfold GetContainer at h
    split at h
    · split at h <;>
      · simp only [RunResult.value.injEq, Except.error.injEq] at h
        subst h
        rfl
    · split at h
      · exact absurd h (by simp)
      · simp at h

/-- C2 counterexample: a failing `startContainer` returns the engine's
plain error, not a `ClientError`. -/
theorem startContainer_unwrapped :
    StartContainer engBoomStart "c1" = some (GoErr.basic "boom") ∧
    isClientError (GoErr.basic "boom") = false :=
  ⟨rfl, rfl⟩

/-- Witness for `engine_ops_error_wrapping`: the create-failure conjunct
evaluated on a concrete engine whose create call fails. -/
theorem engine_ops_error_wrapping_witness :
    clientErrorOp (GoErr.clientError "create_container" (GoErr.basic "engine unavailable")
        "failed to create container") = some "create container" ∨
    clientErrorOp (GoErr.clientError "create_container" (GoErr.basic "engine unavailable")
        "failed to create container") = some "create_container" :=
  engine_ops_error_wrapping.2.2.2.1 engineDefault "app" {} _ rfl

/-! ## C3: createContainer result dichotomy -/

/-- C3 (amended): an unparsable port-map entry aborts `createContainer`
with a `ClientError` whose `Op` is the literal "create container" (with a
space — not "create_container", which is the engine-failure branch's op),
independently of the engine, so no engine create call influences the
result.  For every valid config with non-empty image the call returns
either a non-empty ID (given an engine that assigns non-empty IDs) or a
`ClientError` with one of those two op strings — never both. -/
theorem createContainer_dichotomy :
    (∀ eng eng2 name cfg e, buildPortMaps cfg.Ports = .error e →
      CreateContainer eng name cfg = CreateContainer eng2 name cfg ∧
      CreateContainer eng name cfg =
        .error (.clientError "create container" e "invalid port configuration")) ∧
    (∀ eng name cfg, ValidateContainerConfig cfg = none → cfg.Image ≠ "" →
      (∀ nm req r, eng.containerCreate nm req = .ok r → r.ID ≠ "") →
      (∃ id, CreateContainer eng name cfg = .ok id ∧ id ≠ "") ∨
      (∃ e, CreateContainer eng name cfg = .error e ∧
        (clientErrorOp e = some "create container" ∨
         clientErrorOp e = some "create_container"))) := by
  constructor
  · intro eng eng2 name cfg e h
    unfold CreateContainer
    rw [h]
    exact ⟨rfl, rfl⟩
  · intro eng name cfg _ _ hID
    cases hb : buildPortMaps cfg.Ports with
    | error e =>
      refine Or.inr ⟨GoErr.clientError "create container" e "invalid port configuration",
        ?_, Or.inl rfl⟩
      unfold CreateContainer
      simp only [hb]
    | ok pe =>
      obtain ⟨pb, ex⟩ := pe
      cases hc : eng.containerCreate name
        { config := { Image := cfg.Image, Cmd := cfg.Command, Env := cfg.Env,
                      WorkingDir := cfg.WorkingDir, Labels := cfg.Labels,
                      ExposedPorts := ex },
          host := { NetworkMode := cfg.NetworkMode, PortBindings := pb,
                    Memory := cfg.MemoryLimit, CPUShares := cfg.CPUShares,
                    RestartPolicyName := cfg.RestartPolicy } } with
      | error e2 =>
        refine Or.inr ⟨GoErr.clientError "create_container" e2 "failed to create container",
          ?_, Or.inr rfl⟩
        unfold CreateContainer
        simp only [hb, hc]
      | ok resp =>
        refine Or.inl ⟨resp.ID, ?_, hID _ _ _ hc⟩
        unfold CreateContainer
        simp only [hb, hc]

/-- C3 counterexample: the pre-engine port-parse failure carries op
"create container", which differs from the "create_container" the claim
states. -/
theorem createContainer_op_mismatch :
    CreateContainer engCreateOk "app" cfgBadPort =
      .error (GoErr.clientError "create container" (GoErr.basic "invalid syntax")
        "invalid port configuration") ∧
    ("create container" : String) ≠ "create_container" := by
  exact ⟨rfl, by decide⟩

/-- Witness for `createContainer_dichotomy` on a concrete valid config
and a concrete engine. -/
theorem createContainer_dichotomy_witness :
    (∃ id, CreateContainer engCreateOk "app" cfgGoodPort = .ok id ∧ id ≠ "") ∨
    (∃ e, CreateContainer engCreateOk "app" cfgGoodPort = .error e ∧
      (clientErrorOp e = some "create container" ∨
       clientErrorOp e = some "create_container")) :=
  createContainer_dichotomy.2 engCreateOk "app" cfgGoodPort (by decide) (by decide)
    (fun nm req r h => by
      simp only [engCreateOk, engineDefault] at h
      simp only [Except.ok.injEq] at h
      subst h
      decide)

/-! ## C4: log demultiplexing -/

theorem stdCopyAux_ok (frames : List Frame) :
    ∀ o e, (∀ f ∈ frames, f.fd ≤ 2) →
      stdCopyAux (o, e) frames = .ok (o ++ stdoutOf frames, e ++ stderrOf frames) := by
  induction frames with
  | nil =>
    intro o e _
    simp [stdCopyAux, stdoutOf, stderrOf, str_append_empty]
  | cons f rest ih =>
    intro o e hwf
    have hf : f.fd ≤ 2 := hwf f (by simp)
    have hrest : ∀ g ∈ rest, g.fd ≤ 2 := fun g hg => hwf g (by simp [hg])
    by_cases h01 : f.fd = 0 ∨ f.fd = 1
    · simp only [stdCopyAux, stdoutOf, stderrOf, if_pos h01]
      have h2 : ¬ f.fd = 2 := by omega
      rw [ih (o ++ f.payload) e hrest]
      simp [if_neg h2, str_append_assoc]
    · have h2 : f.fd = 2 := by omega
      simp only [stdCopyAux, stdoutOf, stderrOf, if_neg h01, if_pos h2]
      rw [ih o (e ++ f.payload) hrest]
      simp [str_append_assoc]

/-- C4 (confirmed): for every engine log stream made of well-formed
frames, `getContainerLogs` fully demultiplexes before returning: the
result is a single string with one "STDOUT:" section holding exactly the
concatenated stdout payloads and one "STDERR:" section holding exactly
the concatenated stderr payloads, whatever the interleaving of the
frames; raw frame bytes never cross sections. -/
theorem getContainerLogs_demux (eng : Engine) (id tl : String) (frames : List Frame)
    (hlog : eng.containerLogs id { ShowStdout := true, ShowStderr := true, Tail := tl } =
      .ok frames)
    (hwf : ∀ f ∈ frames, f.fd ≤ 2) :
    GetContainerLogs eng id tl =
      .ok ("STDOUT:\n" ++ stdoutOf frames ++ "\nSTDERR:\n" ++ stderrOf frames) := by
  unfold GetContainerLogs StdCopy
  simp only [hlog]
  rw [stdCopyAux_ok frames "" "" hwf]
  simp [str_empty_append]

/-- Witness for `getContainerLogs_demux` on a concrete interleaved
stream. -/
theorem getContainerLogs_demux_witness :
    GetContainerLogs engLogsC4 "c1" "all" =
      .ok ("STDOUT:\n" ++ stdoutOf framesC4 ++ "\nSTDERR:\n" ++ stderrOf framesC4) :=
  getContainerLogs_demux engLogsC4 "c1" "all" framesC4 rfl (by decide)

/-! ## C5: not-found surfaces as a classifiable ClientError -/

theorem inspect_wrap_contains_notFound (id : String) :
    strContains (errMsg (GoErr.clientError "inspect" (objectNotFoundError "container" id)
      "Container not found")) "No such container" = true := by
  apply strContains_middle ("docker " ++ "inspect" ++ " failed: " ++ "Error: ")
    (": " ++ id ++ " (" ++ "Container not found" ++ ")")
  have hmsg : errMsg (GoErr.clientError "inspect" (objectNotFoundError "container" id)
      "Container not found") =
      "docker " ++ "inspect" ++ " failed: " ++ ("Error: No such " ++ "container" ++ ": " ++ id)
        ++ " (" ++ "Container not found" ++ ")" := rfl
  rw [hmsg]
  simp only [string_toList_append]
  rw [show ("Error: No such " : String).toList =
        ("Error: " : String).toList ++ ("No such " : String).toList from rfl,
      show ("No such container" : String).toList =
        ("No such " : String).toList ++ ("container" : String).toList from rfl]
  simp [List.append_assoc]

/-- C5 (confirmed): inspecting an ID the engine does not know (the engine
returns its typed not-found error, whose message reads
"Error: No such container: \<id>") yields a `ClientError` on which the
code's not-found predicate holds and which the classifier maps to
not-found. -/
theorem getContainer_notFound_classified (parse : String → Option Int) (eng : Engine)
    (id : String)
    (h : eng.containerInspect id = .error (objectNotFoundError "container" id)) :
    GetContainer parse eng id = .value (.error (GoErr.clientError "inspect"
      (objectNotFoundError "container" id) "Container not found")) ∧
    isClientError (GoErr.clientError "inspect"
      (objectNotFoundError "container" id) "Container not found") = true ∧
    IsContainerNotFoundError (some (GoErr.clientError "inspect"
      (objectNotFoundError "container" id) "Container not found")) = true ∧
    classify (GoErr.clientError "inspect"
      (objectNotFoundError "container" id) "Container not found") = ErrorKind.not_found := by
  refine ⟨?_, rfl, inspect_wrap_contains_notFound id, ?_⟩
  · unfold GetContainer
    simp only [h]
    simp [objectNotFoundError, isNotFoundErr]
  · unfold classify
    simp [inspect_wrap_contains_notFound id]

/-- Witness for `getContainer_notFound_classified` at a concrete removed
ID against the engine that knows no container. -/
theorem getContainer_notFound_classified_witness :
    GetContainer (fun _ => none) engNotFound "deadbeef" = .value (.error (GoErr.clientError
      "inspect" (objectNotFoundError "container" "deadbeef") "Container not found")) ∧
    isClientError (GoErr.clientError "inspect"
      (objectNotFoundError "container" "deadbeef") "Container not found") = true ∧
    IsContainerNotFoundError (some (GoErr.clientError "inspect"
      (objectNotFoundError "container" "deadbeef") "Container not found")) = true ∧
    classify (GoErr.clientError "inspect"
      (objectNotFoundError "container" "deadbeef") "Container not found") =
        ErrorKind.not_found :=
  getContainer_notFound_classified (fun _ => none) engNotFound "deadbeef" rfl

/-! ## Split and port-normalization lemmas -/

theorem splitChars_ne_nil (sep : Char) (l : List Char) : splitChars sep l ≠ [] := by
  induction l with
  | nil => simp [splitChars]
  | cons c cs ih =>
    by_cases h : c = sep <;> simp [splitChars, h]

theorem splitChars_length_pos (sep : Char) (l : List Char) :
    0 < (splitChars sep l).length :=
  List.length_pos.mpr (splitChars_ne_nil sep l)

theorem splitChars_two_le (sep : Char) (l : List Char) (h : sep ∈ l) :
    2 ≤ (splitChars sep l).length := by
  induction l with
  | nil => simp at h
  | cons c cs ih =>
    by_cases hc : c = sep
    · have := splitChars_length_pos sep cs
      simp [splitChars, hc]
      omega
    · have hmem : sep ∈ cs := by
        cases List.mem_cons.mp h with
        | inl h1 => exact absurd h1.symm hc
        | inr h2 => exact h2
      have h2 := ih hmem
      have hpos := splitChars_length_pos sep cs
      simp only [splitChars, if_neg hc]
      simp only [List.length_cons, List.length_tail]
      omega

theorem splitChars_length_one (sep : Char) (l : List Char) (h : sep ∉ l) :
    (splitChars sep l).length = 1 := by
  induction l with
  | nil => simp [splitChars]
  | cons c cs ih =>
    have hc : ¬ c = sep := fun he => h (by simp [he])
    have hcs : sep ∉ cs := fun hm => h (by simp [hm])
    have h1 := ih hcs
    have hpos := splitChars_length_pos sep cs
    simp only [splitChars, if_neg hc]
    simp only [List.length_cons, List.length_tail]
    omega

theorem goSplit_length (s : String) (sep : Char) :
    (goSplit s sep).length = (splitChars sep s.toList).length := by
  simp [goSplit]

theorem normBinding_isSome (key : String) (b : PortBinding)
    (h : ('/' : Char) ∈ key.toList) :
    ∃ p, normBinding key b = some p ∧ (goSplit key '/')[1]? = some p.Typ := by
  have h2 : 2 ≤ (goSplit key '/').length := by
    rw [goSplit_length]
    exact splitChars_two_le _ _ h
  cases hx : (goSplit key '/')[1]? with
  | none =>
    rw [List.getElem?_eq_none_iff] at hx
    omega
  | some ty =>
    exact ⟨{ PrivatePort := parseUint16Val ((goSplit key '/').headD ""),
             PublicPort := parseUint16Val b.HostPort, Typ := ty },
           by simp [normBinding, hx], by simp [hx]⟩

theorem normBinding_typ (key : String) (b : PortBinding) (p : GoPort)
    (h : normBinding key b = some p) : (goSplit key '/')[1]? = some p.Typ := by
  unfold normBinding at h
  cases hx : (goSplit key '/')[1]? with
  | none => rw [hx] at h; simp at h
  | some ty =>
    rw [hx] at h
    simp only [Option.some.injEq] at h
    subst h
    rfl

theorem normBinding_none (key : String) (b : PortBinding)
    (h : ('/' : Char) ∉ key.toList) : normBinding key b = none := by
  have h1 : (goSplit key '/').length = 1 := by
    rw [goSplit_length]
    exact splitChars_length_one _ _ h
  have hx : (goSplit key '/')[1]? = none := List.getElem?_eq_none (by omega)
  simp [normBinding, hx]

theorem normBindingsList_some (key : String) (bs : List PortBinding)
    (h : ('/' : Char) ∈ key.toList) :
    ∃ ps, normBindingsList key bs = some ps ∧
      ∀ p ∈ ps, ∃ b ∈ bs, normBinding key b = some p := by
  induction bs with
  | nil => exact ⟨[], rfl, by simp⟩
  | cons b bs ih =>
    obtain ⟨p, hp, _⟩ := normBinding_isSome key b h
    obtain ⟨ps, hps, hmem⟩ := ih
    refine ⟨p :: ps, by simp [normBindingsList, hp, hps], ?_⟩
    intro q hq
    cases List.mem_cons.mp hq with
    | inl h1 => exact ⟨b, by simp, h1 ▸ hp⟩
    | inr h2 =>
      obtain ⟨b2, hb2, hnb⟩ := hmem q h2
      exact ⟨b2, by simp [hb2], hnb⟩

theorem normBindingsList_none (key : String) (bs : List PortBinding)
    (h : ('/' : Char) ∉ key.toList) (hne : bs ≠ []) :
    normBindingsList key bs = none := by
  cases bs with
  | nil => exact absurd rfl hne
  | cons b bs => simp [normBindingsList, normBinding_none key b h]

theorem normalizePorts_some (l : List (String × List PortBinding))
    (h : ∀ kb ∈ l, ('/' : Char) ∈ kb.1.toList) :
    ∃ ps, normalizePorts l = some ps ∧
      ∀ p ∈ ps, ∃ key bs b, (key, bs) ∈ l ∧ b ∈ bs ∧ normBinding key b = some p := by
  induction l with
  | nil => exact ⟨[], rfl, by simp⟩
  | cons kb rest ih =>
    obtain ⟨k, bs⟩ := kb
    have hk : ('/' : Char) ∈ k.toList := h (k, bs) (by simp)
    obtain ⟨ps, hps, hmem1⟩ := normBindingsList_some k bs hk
    obtain ⟨rs, hrs, hmem2⟩ := ih (fun kb hkb => h kb (by simp [hkb]))
    refine ⟨ps ++ rs, by simp [normalizePorts, hps, hrs], ?_⟩
    intro p hp
    cases List.mem_append.mp hp with
    | inl h1 =>
      obtain ⟨b, hb, hnb⟩ := hmem1 p h1
      exact ⟨k, bs, b, by simp, hb, hnb⟩
    | inr h2 =>
      obtain ⟨key, bs2, b, hin, hb, hnb⟩ := hmem2 p h2
      exact ⟨key, bs2, b, by simp [hin], hb, hnb⟩

theorem normalizePorts_none (l : List (String × List PortBinding)) (key : String)
    (bs : List PortBinding) (hin : (key, bs) ∈ l)
    (h : ('/' : Char) ∉ key.toList) (hne : bs ≠ []) :
    normalizePorts l = none := by
  induction l with
  | nil => simp at hin
  | cons kb rest ih =>
    obtain ⟨k1, b1⟩ := kb
    cases List.mem_cons.mp hin with
    | inl h1 =>
      simp only [Prod.mk.injEq] at h1
      obtain ⟨ha, hb⟩ := h1
      subst ha
      subst hb
      cases hrest : normalizePorts rest <;>
        simp [normalizePorts, normBindingsList_none key bs h hne, hrest]
    | inr h2 =>
      cases hfirst : normBindingsList k1 b1 <;>
        simp [normalizePorts, ih h2, hfirst]

/-! ## C6: timestamp parse failures do not abort normalization -/

/-- C6 (confirmed): when inspect succeeds and the payload's port keys are
well formed, `getContainer` returns a `ContainerInfo` — never an error —
and any timestamp whose string fails to parse (the empty string
included: Go `time.Parse` fails on it) comes out as the zero-time
sentinel. -/
theorem getContainer_timestamp_sentinel (parse : String → Option Int) (eng : Engine)
    (id : String) (p : InspectPayload)
    (hins : eng.containerInspect id = .ok p)
    (hkeys : ∀ kb ∈ p.PortsRaw, ('/' : Char) ∈ kb.1.toList) :
    ∃ info, GetContainer parse eng id = .value (.ok info) ∧
      (parse p.Created = none → info.Created = 0) ∧
      (parse p.State.StartedAt = none → info.Started = 0) ∧
      (parse p.State.FinishedAt = none → info.Finished = 0) := by
  obtain ⟨ps, hps, _⟩ := normalizePorts_some p.PortsRaw hkeys
  unfold GetContainer
  simp only [hins, hps]
  exact ⟨_, rfl, fun h => by simp [h], fun h => by simp [h], fun h => by simp [h]⟩

/-- Witness for `getContainer_timestamp_sentinel`: `payload3000` has
empty created/started/finished strings, and all three fields come out as
the zero-time sentinel. -/
theorem getContainer_timestamp_sentinel_witness :
    ∃ info, GetContainer (fun _ => none) engInspect3000 "c1" = .value (.ok info) ∧
      info.Created = 0 ∧ info.Started = 0 ∧ info.Finished = 0 := by
  obtain ⟨info, h1, h2, h3, h4⟩ := getContainer_timestamp_sentinel (fun _ => none)
    engInspect3000 "c1" payload3000 rfl (by decide)
  exact ⟨info, h1, h2 rfl, h3 rfl, h4 rfl⟩

/-! ## C7: port bindings go to host 0.0.0.0 -/

/-- C7 (confirmed): every successfully translated port-map entry produces
a binding with host IP "0.0.0.0" and the entry's host port, under the
"tcp"-forced nat port; the concrete entry "3000" → "3000" yields the key
"3000/tcp" bound to host port "3000", and a subsequent inspect of that
binding reports private port 3000, public port 3000, and Type "tcp". -/
theorem createContainer_port_binding :
    (∀ ports pb ex cp hp, buildPortMaps ports = .ok (pb, ex) → (cp, hp) ∈ ports →
      ∃ np, NewPort "tcp" ((goSplit cp '/').headD "") = .ok np ∧
        (np, ({ HostIP := "0.0.0.0", HostPort := hp } : PortBinding)) ∈ pb) ∧
    (buildPortMaps [("3000", "3000")] =
      .ok ([("3000/tcp", { HostIP := "0.0.0.0", HostPort := "3000" })], ["3000/tcp"])) ∧
    (∃ info, GetContainer (fun _ => none) engInspect3000 "c1" = .value (.ok info) ∧
      info.Ports = [{ PrivatePort := 3000, PublicPort := 3000, Typ := "tcp" }]) := by
  refine ⟨?_, rfl, ⟨_, rfl, rfl⟩⟩
  intro ports
  induction ports with
  | nil =>
    intro pb ex cp hp _ hmem
    simp at hmem
  | cons head rest ih =>
    obtain ⟨cp0, hp0⟩ := head
    intro pb ex cp hp hbuild hmem
    unfold buildPortMaps at hbuild
    split at hbuild
    · exact absurd hbuild (by simp)
    · rename_i np0 hnew
      split at hbuild
      · exact absurd hbuild (by simp)
      · rename_i pb2 ex2 hrest
        simp only [Except.ok.injEq, Prod.mk.injEq] at hbuild
        obtain ⟨hpb, hex⟩ := hbuild
        subst hpb
        subst hex
        cases List.mem_cons.mp hmem with
        | inl h1 =>
          simp only [Prod.mk.injEq] at h1
          obtain ⟨hcp, hhp⟩ := h1
          subst hcp
          subst hhp
          exact ⟨np0, hnew, by simp⟩
        | inr h2 =>
          obtain ⟨np, h3, h4⟩ := ih pb2 ex2 cp hp hrest h2
          exact ⟨np, h3, by simp [h4]⟩

/-- Witness for `createContainer_port_binding`'s universally quantified
first part, at the "3000" → "3000" entry. -/
theorem createContainer_port_binding_witness :
    ∃ np, NewPort "tcp" ((goSplit "3000" '/').headD "") = .ok np ∧
      (np, ({ HostIP := "0.0.0.0", HostPort := "3000" } : PortBinding)) ∈
        [("3000/tcp", ({ HostIP := "0.0.0.0", HostPort := "3000" } : PortBinding))] :=
  createContainer_port_binding.1 [("3000", "3000")]
    [("3000/tcp", { HostIP := "0.0.0.0", HostPort := "3000" })] ["3000/tcp"]
    "3000" "3000" rfl (by decide)

/-! ## C10: the port-key shape is assumed, not checked -/

/-- C10 (confirmed): when every port-binding key of the inspect payload
contains a "/" separator, `getContainer`'s port normalization is total
and each produced entry's Type field is the second component of the
split of some input key (the protocol suffix preserved); but for a key
without "/" that has at least one binding, the `[1]` access is out of
bounds and the operation panics — there is no guarding error branch. -/
theorem getContainer_port_split :
    (∀ parse eng id p, eng.containerInspect id = .ok p →
      (∀ kb ∈ p.PortsRaw, ('/' : Char) ∈ kb.1.toList) →
      ∃ info, GetContainer parse eng id = .value (.ok info) ∧
        ∀ port ∈ info.Ports, ∃ key bs b, (key, bs) ∈ p.PortsRaw ∧ b ∈ bs ∧
          (goSplit key '/')[1]? = some port.Typ) ∧
    (∀ parse eng id p key bs, eng.containerInspect id = .ok p →
      (key, bs) ∈ p.PortsRaw → ('/' : Char) ∉ key.toList → bs ≠ [] →
      GetContainer parse eng id = .crash "index out of range") := by
  constructor
  · intro parse eng id p hins hkeys
    obtain ⟨ps, hps, hmem⟩ := normalizePorts_some p.PortsRaw hkeys
    unfold GetContainer
    simp only [hins, hps]
    refine ⟨_, rfl, ?_⟩
    intro port hport
    obtain ⟨key, bs, b, hin, hb, hnb⟩ := hmem port hport
    exact ⟨key, bs, b, hin, hb, normBinding_typ key b port hnb⟩
  · intro parse eng id p key bs hins hin hk hne
    unfold GetContainer
    simp only [hins, normalizePorts_none p.PortsRaw key bs hin hk hne]

/-- Witness for `getContainer_port_split`: the well-formed key
"3000/tcp" normalizes totally, and the slash-free key "3000" with one
binding panics. -/
theorem getContainer_port_split_witness :
    (∃ info, GetContainer (fun _ => none) engInspect3000 "c1" = .value (.ok info) ∧
      ∀ port ∈ info.Ports, ∃ key bs b, (key, bs) ∈ payload3000.PortsRaw ∧ b ∈ bs ∧
        (goSplit key '/')[1]? = some port.Typ) ∧
    GetContainer (fun _ => none) engNoSlash "c1" = .crash "index out of range" :=
  ⟨getContainer_port_split.1 (fun _ => none) engInspect3000 "c1" payload3000 rfl (by decide),
   getContainer_port_split.2 (fun _ => none) engNoSlash "c1" payloadNoSlash "3000"
     [{ HostIP := "0.0.0.0", HostPort := "3000" }] rfl (by decide) (by decide) (by decide)⟩

/-! ## C8: container-config validation -/

/-- C8 (amended): `ValidateContainerConfig` accepts exactly the configs
with non-empty image, non-negative memory and CPU shares, and either a
"container:"-prefixed network mode — in which case the restart policy is
not checked at all — or a network mode in {empty, bridge, host, none,
container} (the bare string "container" is accepted) together with a
restart policy in {empty, no, always, unless-stopped, on-failure}. -/
theorem validateContainerConfig_characterization (c : ContainerConfig) :
    ValidateContainerConfig c = none ↔
      (c.Image ≠ "" ∧ 0 ≤ c.MemoryLimit ∧ 0 ≤ c.CPUShares ∧
        (goHasPrefix c.NetworkMode "container:" = true ∨
          ((c.NetworkMode = "" ∨ c.NetworkMode = "bridge" ∨ c.NetworkMode = "host" ∨
            c.NetworkMode = "none" ∨ c.NetworkMode = "container") ∧
           (c.RestartPolicy = "" ∨ c.RestartPolicy = "no" ∨ c.RestartPolicy = "always" ∨
            c.RestartPolicy = "unless-stopped" ∨ c.RestartPolicy = "on-failure")))) := by
  unfold ValidateContainerConfig restartPolicyCheck
  split_ifs <;> simp_all
  all_goals first
  | omega
  | tauto

/-- C8 counterexample: the bare network mode "container" and a
"container:"-prefixed mode with a bogus restart policy are both accepted
by the code, while the claim's invariant rejects both configs. -/
theorem validateContainerConfig_claim_false :
    ValidateContainerConfig cfgBareContainer = none ∧ ¬ ClaimAccepts cfgBareContainer ∧
    ValidateContainerConfig cfgPrefixBadPolicy = none ∧ ¬ ClaimAccepts cfgPrefixBadPolicy := by
  refine ⟨by decide, by decide, by decide, by decide⟩

/-! ## C9: removeContainer and the force flag -/

/-- C9 (confirmed): `removeContainer` forwards the caller's force flag to
the engine unchanged; against the daemon's documented semantics, a
non-forced removal of a running container fails while a forced removal
of the same container succeeds. -/
theorem removeContainer_force (running : List String) (id : String) (h : id ∈ running) :
    (RemoveContainer (engineRunning running) id false).isSome = true ∧
    RemoveContainer (engineRunning running) id true = none ∧
    (∀ eng i f, RemoveContainer eng i f = eng.containerRemove i f) := by
  refine ⟨?_, ?_, fun _ _ _ => rfl⟩
  · simp [RemoveContainer, engineRunning, engineDefault, daemonRemove, h]
  · simp [RemoveContainer, engineRunning, engineDefault, daemonRemove]

/-- Witness for `removeContainer_force` with the running container
"c1". -/
theorem removeContainer_force_witness :
    (RemoveContainer (engineRunning ["c1"]) "c1" false).isSome = true ∧
    RemoveContainer (engineRunning ["c1"]) "c1" true = none ∧
    (∀ eng i f, RemoveContainer eng i f = eng.containerRemove i f) :=
  removeContainer_force ["c1"] "c1" (by decide)

end BlockBuilder
